import Mathlib

/-!
Verification of the medical-lms backend (FastAPI + SQLAlchemy) against its
specification.  The relevant tables (src/backend/app/models.py) and the three
routers (auth.py, courses.py, content.py) are shallowly embedded: a database
state is a record of lists of rows, `db.query(T).filter(p).first()` becomes
`List.find?`, `.filter(p).all()` becomes `List.filter`, `.order_by(k)` becomes
an insertion sort on the key, and an endpoint returns `Except Failure α`
(plus the resulting database state for the mutating endpoints).  Opaque UUID
identifiers are modelled as `Nat` and their textual form `str(uuid)` by the
identity on that `Nat`; `datetime` values are modelled as `Nat` timestamps.
-/

namespace MedLMS

/-- Closed role set, from the `UserRole` enum in models.py. -/
inductive UserRole where
  | ADMIN
  | FACULTY
  | STUDENT
deriving DecidableEq, Repr

/-- Closed content-kind set, from the `ContentType` enum in models.py. -/
inductive ContentType where
  | PDF
  | VIDEO
  | TEXT
deriving DecidableEq, Repr

/-- The `.value` of a `ContentType` member (the enum is backed by these strings). -/
def ContentType.value : ContentType → String
  | .PDF => "PDF"
  | .VIDEO => "VIDEO"
  | .TEXT => "TEXT"

/-- Row of the `tenants` table (models.py, class Tenant). -/
structure Tenant where
  id : Nat
  name : String
  domain : Option String := none
  is_active : Bool := true
deriving DecidableEq, Repr

/-- Row of the `users` table (models.py, class User). -/
structure User where
  id : Nat
  tenant_id : Nat
  email : String
  password_hash : String
  full_name : String
  phone : Option String := none
  role : UserRole
  is_active : Bool := true
deriving DecidableEq, Repr

/-- Row of the `courses` table (models.py, class Course). -/
structure Course where
  id : Nat
  tenant_id : Nat
  dept_id : Option Nat := none
  title : String
  code : Option String := none
  description : Option String := none
  faculty_name : Option String := none
  is_active : Bool := true
deriving DecidableEq, Repr

/-- Row of the `course_enrollments` table (models.py, class CourseEnrollment). -/
structure CourseEnrollment where
  id : Nat
  course_id : Nat
  student_id : Nat
  tenant_id : Nat
deriving DecidableEq, Repr

/-- Row of the `modules` table (models.py, class Module). -/
structure Module where
  id : Nat
  tenant_id : Nat
  course_id : Nat
  title : String
  sequence_order : Nat
deriving DecidableEq, Repr

/-- Row of the `content_items` table (models.py, class ContentItem). -/
structure ContentItem where
  id : Nat
  tenant_id : Nat
  module_id : Nat
  title : String
  type : ContentType
  file_url : Option String := none
  text_content : Option String := none
  duration_minutes : Option Nat := none
  sequence_order : Nat
deriving DecidableEq, Repr

/-- Row of the `lesson_progress` table (models.py, class LessonProgress). -/
structure LessonProgress where
  id : Nat
  student_id : Nat
  content_item_id : Nat
  is_completed : Bool := false
  completed_at : Option Nat := none
deriving DecidableEq, Repr

/-- A database state: one list of rows per table the routers touch.  The list
order is the (unspecified) physical row order that unordered SQL queries and
`first()` observe. -/
structure DB where
  tenants : List Tenant := []
  users : List User := []
  courses : List Course := []
  course_enrollments : List CourseEnrollment := []
  modules : List Module := []
  content_items : List ContentItem := []
  lesson_progress : List LessonProgress := []
deriving DecidableEq, Repr

/-- Outcome of a handler that does not return normally: either a raised
`HTTPException(status_code, detail)` or an uncaught Python exception such as
`AttributeError` (which the framework surfaces as a 500). -/
inductive Failure where
  | http (status_code : Nat) (detail : String)
  | pyAttributeError (msg : String)
deriving DecidableEq, Repr

deriving instance DecidableEq for Except

/-- Insertion of an element into a list sorted by a `Nat` key (helper for
`sortByKey`). -/
def insertByKey (key : α → Nat) (x : α) : List α → List α
  | [] => [x]
  | y :: ys => if key x ≤ key y then x :: y :: ys else y :: insertByKey key x ys

/-- Embedding of `.order_by(k)`: insertion sort on the key `k`. -/
def sortByKey (key : α → Nat) : List α → List α
  | [] => []
  | x :: xs => insertByKey key x (sortByKey key xs)

/-- Replacement, in place, of the first element satisfying `p` (the effect of
mutating the object returned by `first()` and committing). -/
def updateFirst (p : α → Bool) (f : α → α) : List α → List α
  | [] => []
  | x :: xs => if p x then f x :: xs else x :: updateFirst p f xs

/-! ## Courses router (src/backend/app/routers/courses.py) -/

/-- Response model `CourseBasic` (courses.py). -/
structure CourseBasic where
  id : Nat
  title : String
  code : Option String
  faculty_name : Option String
deriving DecidableEq, Repr

/-- Response model `CourseDetail` (courses.py). -/
structure CourseDetail where
  id : Nat
  title : String
  code : Option String
  description : Option String
  faculty_name : Option String
deriving DecidableEq, Repr

/-- Response model `ModuleResponse` (courses.py). -/
structure ModuleResponse where
  id : Nat
  title : String
  sequence_order : Nat
deriving DecidableEq, Repr

/-- GET /courses/my-courses (courses.py, `get_my_courses`): all enrollments of
the current user in their tenant; for each, the first course with that id and
`is_active` (note: the course query has no tenant filter); enrollments whose
course lookup comes back empty are skipped. -/
def get_my_courses (current_user : User) (db : DB) : List CourseBasic :=
  let enrollments := db.course_enrollments.filter (fun e =>
    e.student_id == current_user.id && e.tenant_id == current_user.tenant_id)
  enrollments.filterMap (fun enrollment =>
    match db.courses.find? (fun c => c.id == enrollment.course_id && c.is_active) with
    | some course =>
        some { id := course.id, title := course.title, code := course.code,
               faculty_name := course.faculty_name }
    | none => none)

/-- GET /courses/\x7bcourse_id\x7d (courses.py, `get_course_detail`): the
enrollment check (403) comes first, then the existence-and-active lookup
(404, again with no tenant filter on the course itself). -/
def get_course_detail (course_id : Nat) (current_user : User) (db : DB) :
    Except Failure CourseDetail :=
  match db.course_enrollments.find? (fun e =>
      e.course_id == course_id && e.student_id == current_user.id &&
      e.tenant_id == current_user.tenant_id) with
  | none => .error (.http 403 "You are not enrolled in this course")
  | some _ =>
    match db.courses.find? (fun c => c.id == course_id && c.is_active) with
    | none => .error (.http 404 "Course not found")
    | some course =>
        .ok { id := course.id, title := course.title, code := course.code,
              description := course.description, faculty_name := course.faculty_name }

/-- GET /courses/\x7bcourse_id\x7d/modules (courses.py, `get_course_modules`):
enrollment check (403), then the course's modules in the user's tenant ordered
by `sequence_order`. -/
def get_course_modules (course_id : Nat) (current_user : User) (db : DB) :
    Except Failure (List ModuleResponse) :=
  match db.course_enrollments.find? (fun e =>
      e.course_id == course_id && e.student_id == current_user.id &&
      e.tenant_id == current_user.tenant_id) with
  | none => .error (.http 403 "You are not enrolled in this course")
  | some _ =>
    let modules := sortByKey Module.sequence_order
      (db.modules.filter (fun m =>
        m.course_id == course_id && m.tenant_id == current_user.tenant_id))
    .ok (modules.map (fun m =>
      { id := m.id, title := m.title, sequence_order := m.sequence_order }))

/-! ## Content router (src/backend/app/routers/content.py) -/

/-- Response model `LessonBasic` (content.py). -/
structure LessonBasic where
  id : Nat
  title : String
  content_type : String
  duration_minutes : Option Nat
  sequence_order : Nat
  is_completed : Bool := false
deriving DecidableEq, Repr

/-- Response model `LessonDetail` (content.py). -/
structure LessonDetail where
  id : Nat
  title : String
  content_type : String
  file_url : Option String
  text_content : Option String
  duration_minutes : Option Nat
  sequence_order : Nat
  is_completed : Bool := false
deriving DecidableEq, Repr

/-- Response model `CompleteResponse` (content.py). -/
structure CompleteResponse where
  message : String
  lesson_id : Nat
  completed_at : Nat
deriving DecidableEq, Repr

/-- GET /content/\x7bmodule_id\x7d/lessons (content.py, `get_module_lessons`):
module must exist in the user's tenant (404), then the enrollment check
against the module's course (403), then the module's lessons in the tenant
ordered by `sequence_order`, each annotated with the requester's progress
(no progress row means not completed). -/
def get_module_lessons (module_id : Nat) (current_user : User) (db : DB) :
    Except Failure (List LessonBasic) :=
  match db.modules.find? (fun m =>
      m.id == module_id && m.tenant_id == current_user.tenant_id) with
  | none => .error (.http 404 "Module not found")
  | some mod =>
    match db.course_enrollments.find? (fun e =>
        e.course_id == mod.course_id && e.student_id == current_user.id &&
        e.tenant_id == current_user.tenant_id) with
    | none => .error (.http 403 "You are not enrolled in this course")
    | some _ =>
      let lessons := sortByKey ContentItem.sequence_order
        (db.content_items.filter (fun c =>
          c.module_id == module_id && c.tenant_id == current_user.tenant_id))
      .ok (lessons.map (fun lesson =>
        let progress := db.lesson_progress.find? (fun p =>
          p.student_id == current_user.id && p.content_item_id == lesson.id)
        { id := lesson.id, title := lesson.title,
          content_type := lesson.type.value,
          duration_minutes := lesson.duration_minutes,
          sequence_order := lesson.sequence_order,
          is_completed := match progress with
                          | some p => p.is_completed
                          | none => false }))

/-- GET /content/lesson/\x7blesson_id\x7d (content.py, `get_lesson_content`):
the in-tenant existence lookup (404) comes FIRST, then the module walk (whose
query has no tenant filter and whose result is dereferenced without a null
check: a dangling `module_id` raises `AttributeError`), then the enrollment
check (403), then the full payload with the completion flag. -/
def get_lesson_content (lesson_id : Nat) (current_user : User) (db : DB) :
    Except Failure LessonDetail :=
  match db.content_items.find? (fun c =>
      c.id == lesson_id && c.tenant_id == current_user.tenant_id) with
  | none => .error (.http 404 "Lesson not found")
  | some lesson =>
    match db.modules.find? (fun m => m.id == lesson.module_id) with
    | none => .error (.pyAttributeError "NoneType object has no attribute course_id")
    | some mod =>
      match db.course_enrollments.find? (fun e =>
          e.course_id == mod.course_id && e.student_id == current_user.id &&
          e.tenant_id == current_user.tenant_id) with
      | none => .error (.http 403 "You are not enrolled in this course")
      | some _ =>
        let progress := db.lesson_progress.find? (fun p =>
          p.student_id == current_user.id && p.content_item_id == lesson.id)
        .ok { id := lesson.id, title := lesson.title,
              content_type := lesson.type.value,
              file_url := lesson.file_url, text_content := lesson.text_content,
              duration_minutes := lesson.duration_minutes,
              sequence_order := lesson.sequence_order,
              is_completed := match progress with
                              | some p => p.is_completed
                              | none => false }

/-- POST /content/lesson/\x7blesson_id\x7d/complete (content.py,
`mark_lesson_complete`): same gating as `get_lesson_content`, then an upsert
of the requester's progress row for the lesson: the first existing row for
(student, content item) is updated in place to completed with the fresh
timestamp, otherwise a new row (fresh surrogate id `fresh_id`, standing for
the source's `uuid.uuid4()`; `now` stands for `datetime.utcnow()`) is
appended.  The handler returns the response together with the resulting
database state; a failing request leaves the state untouched. -/
def mark_lesson_complete (lesson_id : Nat) (current_user : User)
    (now : Nat) (fresh_id : Nat) (db : DB) :
    Except Failure CompleteResponse × DB :=
  match db.content_items.find? (fun c =>
      c.id == lesson_id && c.tenant_id == current_user.tenant_id) with
  | none => (.error (.http 404 "Lesson not found"), db)
  | some lesson =>
    match db.modules.find? (fun m => m.id == lesson.module_id) with
    | none => (.error (.pyAttributeError "NoneType object has no attribute course_id"), db)
    | some mod =>
      match db.course_enrollments.find? (fun e =>
          e.course_id == mod.course_id && e.student_id == current_user.id &&
          e.tenant_id == current_user.tenant_id) with
      | none => (.error (.http 403 "You are not enrolled in this course"), db)
      | some _ =>
        let progressKey := fun (p : LessonProgress) =>
          p.student_id == current_user.id && p.content_item_id == lesson.id
        let response : CompleteResponse :=
          { message := "Lesson marked as complete", lesson_id := lesson.id,
            completed_at := now }
        match db.lesson_progress.find? progressKey with
        | some _ =>
            let updated := updateFirst progressKey
              (fun p => { p with is_completed := true, completed_at := some now })
              db.lesson_progress
            (.ok response, { db with lesson_progress := updated })
        | none =>
            let newRow : LessonProgress :=
              { id := fresh_id, student_id := current_user.id,
                content_item_id := lesson.id, is_completed := true,
                completed_at := some now }
            (.ok response, { db with lesson_progress := db.lesson_progress ++ [newRow] })

/-! ## Auth router (src/backend/app/routers/auth.py)

The helpers `verify_password`, `hash_password` and `create_token` live in
`app/auth.py`, which is not part of the snapshot; `verify_password` is
therefore taken as a parameter, and a successful login is abstracted to the
user id the issued token is bound to. -/

/-- Request model `SignupRequest` (auth.py).  The field `tenant_id` is
COMMENTED OUT in the source (auth.py line 20), so the model has no such
field. -/
structure SignupRequest where
  email : String
  password : String
  full_name : String
  phone : Option String := none
  role : String := "STUDENT"
deriving DecidableEq, Repr

/-- Request model `LoginRequest` (auth.py). -/
structure LoginRequest where
  email : String
  password : String
deriving DecidableEq, Repr

/-- The closed role list hard-coded in `signup` (auth.py line 56). -/
def valid_roles : List String := ["ADMIN", "FACULTY", "STUDENT"]

/-- Embedding of Python's `str.upper()` on the ASCII role strings the handler
compares against. -/
def pyUpper (s : String) : String := ⟨s.data.map Char.toUpper⟩

/-- Response model `UserResponse` (auth.py). -/
structure UserResponse where
  id : Nat
  email : String
  full_name : String
  role : String
  tenant_id : Nat
deriving DecidableEq, Repr

/-- POST /auth/signup (auth.py, `signup`): global duplicate-email check
(HTTP 400, no tenant filter), then the role check (HTTP 400), then the source
reads `signup_data.tenant_id` (line 65) — an attribute that does not exist on
`SignupRequest` because its declaration is commented out (line 20).  Python
raises `AttributeError` there, so the tenant-fallback block and the user
creation below it (lines 66-105) are unreachable dead code and no state is
ever modified.  The handler returns the outcome together with the resulting
database state. -/
def signup (signup_data : SignupRequest) (db : DB) :
    Except Failure UserResponse × DB :=
  match db.users.find? (fun u => u.email == signup_data.email) with
  | some _ => (.error (.http 400 "Email already registered"), db)
  | none =>
    if valid_roles.contains (pyUpper signup_data.role) then
      (.error (.pyAttributeError "SignupRequest object has no attribute tenant_id"), db)
    else
      (.error (.http 400 ("Invalid role. Must be one of: " ++
        String.intercalate ", " valid_roles)), db)

/-- POST /auth/login (auth.py, `login`): global lookup by email, 401 with a
generic message when no user matches, the same 401 when the password check
fails, 403 when the matched user is disabled, otherwise a token bound to the
user's id (abstracted to that id). -/
def login (verify_password : String → String → Bool)
    (login_data : LoginRequest) (db : DB) : Except Failure Nat :=
  match db.users.find? (fun u => u.email == login_data.email) with
  | none => .error (.http 401 "Email or password is incorrect")
  | some user =>
    if !(verify_password login_data.password user.password_hash) then
      .error (.http 401 "Email or password is incorrect")
    else if !user.is_active then
      .error (.http 403 "Your account is disabled")
    else
      .ok user.id

/-! ## Derived notions used by the statements -/

/-- The requester's progress row for a content item: the same query the
content router issues (`LessonProgress` filtered by student and content item,
`first()`). -/
def progress_for (db : DB) (student_id content_item_id : Nat) : Option LessonProgress :=
  db.lesson_progress.find? (fun p =>
    p.student_id == student_id && p.content_item_id == content_item_id)

/-- The (student, content item) key of each progress row, in table order. -/
def progressKeys (l : List LessonProgress) : List (Nat × Nat) :=
  l.map (fun p => (p.student_id, p.content_item_id))

/-- At most one progress row per (student, content item) pair. -/
def AtMostOnePerPair (l : List LessonProgress) : Prop :=
  (progressKeys l).Pairwise (fun a b => a ≠ b)

/-! ## Concrete states used by witnesses and counterexamples -/

/-- A signup request that passes the duplicate-email and role checks
(role defaults to STUDENT, no tenant specified — the model cannot specify
one). -/
def c2_request : SignupRequest :=
  { email := "new@example.com", password := "pw", full_name := "New User" }

/-- A user of tenant 2 whose email the duplicate check must catch globally. -/
def c9_user : User :=
  { id := 5, tenant_id := 2, email := "dup@example.com", password_hash := "h",
    full_name := "Existing", role := .STUDENT }

/-- Two tenants, with `c9_user` registered under tenant 2. -/
def c9_db : DB :=
  { tenants := [{ id := 1, name := "T1" }, { id := 2, name := "T2" }],
    users := [c9_user] }

/-- A signup request reusing the email of `c9_user`. -/
def c9_request : SignupRequest :=
  { email := "dup@example.com", password := "pw", full_name := "Dup" }

/-- A registered user, for the wrong-password half of the login claim. -/
def c8_user : User :=
  { id := 7, tenant_id := 1, email := "alice@t1.edu", password_hash := "hash",
    full_name := "Alice", role := .STUDENT }

/-- A database holding exactly `c8_user`. -/
def c8_db : DB := { users := [c8_user] }

/-- A student of tenant 1 (counterexample state for the tenant-isolation
claim). -/
def c1_user : User :=
  { id := 1, tenant_id := 1, email := "s@t1.edu", password_hash := "h",
    full_name := "S", role := .STUDENT }

/-- A state whose only course belongs to tenant 2 while an enrollment row of
tenant 1 points at it: the course query of the courses router has no tenant
filter, so the tenant-1 student sees the tenant-2 course. -/
def c1_db : DB :=
  { tenants := [{ id := 1, name := "T1" }, { id := 2, name := "T2" }],
    users := [c1_user],
    courses := [{ id := 10, tenant_id := 2, title := "T2 Course" }],
    course_enrollments := [{ id := 100, course_id := 10, student_id := 1, tenant_id := 1 }] }

/-- A student of tenant 1 enrolled in nothing (counterexample state for the
lesson-detail ordering claim). -/
def c3_user : User :=
  { id := 2, tenant_id := 1, email := "t@t1.edu", password_hash := "h",
    full_name := "T", role := .STUDENT }

/-- A state with one lesson (id 30) and no enrollments at all; lesson id 99
does not exist. -/
def c3_db : DB :=
  { tenants := [{ id := 1, name := "T1" }],
    users := [c3_user],
    courses := [{ id := 10, tenant_id := 1, title := "Anatomy" }],
    modules := [{ id := 20, tenant_id := 1, course_id := 10, title := "Ch1",
                  sequence_order := 1 }],
    content_items := [{ id := 30, tenant_id := 1, module_id := 20, title := "L1",
                        type := .TEXT, sequence_order := 1 }] }

/-- The student of the consistent witness state. -/
def w_user : User :=
  { id := 1, tenant_id := 1, email := "stu@t1.edu", password_hash := "h",
    full_name := "Stu", role := .STUDENT }

/-- The active course of the consistent witness state. -/
def w_course : Course := { id := 10, tenant_id := 1, title := "Anatomy" }

/-- The module of the consistent witness state. -/
def w_mod : Module :=
  { id := 20, tenant_id := 1, course_id := 10, title := "Ch1", sequence_order := 1 }

/-- The TEXT lesson of the consistent witness state. -/
def w_lesson : ContentItem :=
  { id := 30, tenant_id := 1, module_id := 20, title := "L1", type := .TEXT,
    text_content := some "body", sequence_order := 1 }

/-- The enrollment of `w_user` in `w_course`. -/
def w_enrollment : CourseEnrollment :=
  { id := 100, course_id := 10, student_id := 1, tenant_id := 1 }

/-- A small tenant-consistent state: one tenant, one student enrolled in one
active course with one module and one lesson, no progress yet. -/
def w_db : DB :=
  { tenants := [{ id := 1, name := "T1" }],
    users := [w_user],
    courses := [w_course],
    course_enrollments := [w_enrollment],
    modules := [w_mod],
    content_items := [w_lesson] }

/-- Variant of the witness state whose course is inactive (for the 404 arm of
the course-detail claim). -/
def w_db_inactive : DB :=
  { w_db with courses := [{ w_course with is_active := false }] }

/-- Variant of the witness state in which the student already has a completed
progress row for the lesson (for the update-in-place arm of the upsert
claims). -/
def w_db_progress : DB :=
  { w_db with lesson_progress :=
      [{ id := 500, student_id := 1, content_item_id := 30, is_completed := true,
         completed_at := some 100 }] }

/-! ## Helper lemmas about the list combinators -/

theorem mem_insertByKey (key : α → Nat) (x a : α) (l : List α) :
    a ∈ insertByKey key x l ↔ a = x ∨ a ∈ l := by
  induction l with
  | nil => simp [insertByKey]
  | cons y ys ih =>
    by_cases h : key x ≤ key y
    · simp [insertByKey, h]
    · simp only [insertByKey, if_neg h, List.mem_cons, ih]
      tauto

theorem mem_sortByKey (key : α → Nat) (a : α) (l : List α) :
    a ∈ sortByKey key l ↔ a ∈ l := by
  induction l with
  | nil => simp [sortByKey]
  | cons y ys ih => simp [sortByKey, mem_insertByKey, ih]

theorem find?_updateFirst (p : α → Bool) (f : α → α)
    (hpf : ∀ x, p x = true → p (f x) = true) (l : List α) :
    (updateFirst p f l).find? p = (l.find? p).map f := by
  induction l with
  | nil => simp [updateFirst]
  | cons x xs ih =>
    by_cases h : p x = true
    · simp [updateFirst, h, List.find?_cons, hpf x h]
    · have h' : p x = false := by simpa using h
      simp [updateFirst, h', List.find?_cons, ih]

theorem map_updateFirst (p : α → Bool) (f : α → α) (g : α → β)
    (hgf : ∀ x, p x = true → g (f x) = g x) (l : List α) :
    (updateFirst p f l).map g = l.map g := by
  induction l with
  | nil => rfl
  | cons x xs ih =>
    by_cases h : p x = true
    · simp [updateFirst, h, hgf x h]
    · have h' : p x = false := by simpa using h
      simp [updateFirst, h', ih]

theorem filter_updateFirst (p q : α → Bool) (f : α → α)
    (hq : ∀ x, p x = true → q x = false)
    (hqf : ∀ x, p x = true → q (f x) = false) (l : List α) :
    (updateFirst p f l).filter q = l.filter q := by
  induction l with
  | nil => rfl
  | cons x xs ih =>
    by_cases h : p x = true
    · simp [updateFirst, h, List.filter_cons, hq x h, hqf x h]
    · have h' : p x = false := by simpa using h
      simp [updateFirst, h', List.filter_cons, ih]

/-! ## Claims about the auth router -/

/-- C2: every signup request that passes the duplicate-email check and the
role check reaches the read of `signup_data.tenant_id` (auth.py line 65), an
attribute that does not exist on `SignupRequest` because its declaration is
commented out (line 20); the handler therefore raises `AttributeError` and
leaves the database unchanged — the tenant-fallback policy the claim
describes (attach to the first tenant, create a hard-coded default tenant)
is dead code and no user is ever created. -/
theorem C2_signup_crashes_before_tenant_fallback (d : SignupRequest) (db : DB)
    (hdup : ∀ u ∈ db.users, u.email ≠ d.email)
    (hrole : valid_roles.contains (pyUpper d.role) = true) :
    signup d db =
      (.error (.pyAttributeError "SignupRequest object has no attribute tenant_id"), db) := by
  have hfind : db.users.find? (fun u => u.email == d.email) = none :=
    List.find?_eq_none.mpr (fun u hu => by simpa using hdup u hu)
  have hrole' : pyUpper d.role ∈ valid_roles := by simpa using hrole
  simp [signup, hfind, hrole']

/-- C2 witness: the failing input evaluated — a fresh signup against an empty
database (no tenants, no users) raises `AttributeError` instead of creating
the default tenant and the user. -/
theorem C2_signup_crashes_witness :
    signup c2_request ({} : DB) =
      (.error (.pyAttributeError "SignupRequest object has no attribute tenant_id"), ({} : DB)) :=
  C2_signup_crashes_before_tenant_fallback c2_request ({} : DB)
    (by decide) (by decide)

/-- C9 (amended): signup with an already-registered email fails — with HTTP
status 400 ("Email already registered"), not 409 Conflict — the check is
global across all tenants (the lookup has no tenant filter), and the database
is returned unchanged, so no user is created. -/
theorem C9_duplicate_email_rejected (d : SignupRequest) (db : DB)
    (hdup : ∃ u ∈ db.users, u.email = d.email) :
    signup d db = (.error (.http 400 "Email already registered"), db) := by
  have hsome : (db.users.find? (fun u => u.email == d.email)).isSome := by
    rw [List.find?_isSome]
    obtain ⟨u, hu, he⟩ := hdup
    exact ⟨u, hu, by simp [he]⟩
  obtain ⟨u, hu⟩ := Option.isSome_iff_exists.mp hsome
  simp [signup, hu]

/-- C9 counterexample to the claim as stated: the duplicate-email failure
carries HTTP status 400 (Bad Request), which is not 409 (Conflict), even
though the duplicate lives in a different tenant (the check is global). -/
theorem C9_duplicate_email_status_counterexample :
    (signup c9_request c9_db).1 = .error (.http 400 "Email already registered") ∧
    (400 : Nat) ≠ 409 := by
  decide

/-- C9 witness: a duplicate email registered under tenant 2 blocks a fresh
signup (which would land in tenant 1, the first tenant) — the global check at
work, with the state unchanged. -/
theorem C9_duplicate_email_witness :
    signup c9_request c9_db = (.error (.http 400 "Email already registered"), c9_db) :=
  C9_duplicate_email_rejected c9_request c9_db (by decide)

/-- C8: login with an email matching no user, and login with a registered
email whose password fails verification, both produce exactly
`HTTPException(401, "Email or password is incorrect")` — identical status and
message, so the response does not reveal whether the email exists. -/
theorem C8_login_failures_indistinguishable (verify : String → String → Bool)
    (d1 d2 : LoginRequest) (db1 db2 : DB)
    (h1 : ∀ u ∈ db1.users, u.email ≠ d1.email)
    (u : User) (h2 : db2.users.find? (fun x => x.email == d2.email) = some u)
    (h3 : verify d2.password u.password_hash = false) :
    login verify d1 db1 = .error (.http 401 "Email or password is incorrect") ∧
    login verify d2 db2 = .error (.http 401 "Email or password is incorrect") := by
  constructor
  · have hfind : db1.users.find? (fun x => x.email == d1.email) = none :=
      List.find?_eq_none.mpr (fun x hx => by simpa using h1 x hx)
    simp [login, hfind]
  · simp [login, h2, h3]

/-- C8 witness: with password verification modelled as string comparison, an
unknown email on an empty database and a wrong password for `c8_user` yield
the same 401 with the same message. -/
theorem C8_login_failures_witness :
    login (fun p h => p == h) { email := "ghost@t1.edu", password := "x" } ({} : DB) =
      .error (.http 401 "Email or password is incorrect") ∧
    login (fun p h => p == h) { email := "alice@t1.edu", password := "wrong" } c8_db =
      .error (.http 401 "Email or password is incorrect") :=
  C8_login_failures_indistinguishable (fun p h => p == h)
    { email := "ghost@t1.edu", password := "x" }
    { email := "alice@t1.edu", password := "wrong" }
    ({} : DB) c8_db (by decide) c8_user (by decide) (by decide)

/-! ## Claims about the courses and content routers -/

/-- C1 counterexample: in `c1_db` the only course row belongs to tenant 2,
yet the my-courses listing of the tenant-1 student `c1_user` includes it,
because an enrollment row of tenant 1 references it and the course query has
no tenant filter — so a row whose tenant differs from the user's CAN be
returned, refuting the claim as stated. -/
theorem C1_cross_tenant_course_returned :
    ∃ e ∈ c1_db.courses, e.tenant_id ≠ c1_user.tenant_id ∧
      ∃ b ∈ get_my_courses c1_user c1_db, b.id = e.id ∧ b.title = e.title := by
  decide

/-- C1 (amended): provided every enrollment row carries the tenant of the
course it references (tenant-consistent enrollments — the only way the seeded
data is ever written), each of the five read operations only ever returns
entities drawn from rows of the requester's own tenant: every element of a
listing and every detail response is the rendering of a row whose
`tenant_id` equals the requester's.  (No operation returns enrollment rows
at all.)  Without that consistency assumption the course-returning
operations can leak a cross-tenant course, as `C1_cross_tenant_course_returned`
shows. -/
theorem C1_tenant_isolation (db : DB) (u : User)
    (hwf : ∀ e ∈ db.course_enrollments, ∀ c ∈ db.courses,
      c.id = e.course_id → c.tenant_id = e.tenant_id) :
    (∀ b ∈ get_my_courses u db, ∃ c ∈ db.courses,
      c.tenant_id = u.tenant_id ∧ b.id = c.id ∧ b.title = c.title) ∧
    (∀ cid d, get_course_detail cid u db = .ok d → ∃ c ∈ db.courses,
      c.tenant_id = u.tenant_id ∧ d.id = c.id ∧ d.title = c.title) ∧
    (∀ cid ms, get_course_modules cid u db = .ok ms → ∀ r ∈ ms, ∃ m ∈ db.modules,
      m.tenant_id = u.tenant_id ∧ r.id = m.id ∧ r.title = m.title) ∧
    (∀ mid ls, get_module_lessons mid u db = .ok ls → ∀ r ∈ ls, ∃ c ∈ db.content_items,
      c.tenant_id = u.tenant_id ∧ r.id = c.id ∧ r.title = c.title) ∧
    (∀ lid d, get_lesson_content lid u db = .ok d → ∃ c ∈ db.content_items,
      c.tenant_id = u.tenant_id ∧ d.id = c.id ∧ d.title = c.title) := by
  refine ⟨?_, ?_, ?_, ?_, ?_⟩
  · intro b hb
    simp only [get_my_courses, List.mem_filterMap, List.mem_filter] at hb
    obtain ⟨e, ⟨heMem, hePred⟩, hfe⟩ := hb
    cases hc : db.courses.find? (fun c => c.id == e.course_id && c.is_active) with
    | none => rw [hc] at hfe; exact absurd hfe (by simp)
    | some course =>
      rw [hc] at hfe
      rw [Option.some_inj] at hfe
      have hcMem := List.mem_of_find?_eq_some hc
      have hcPred := List.find?_some hc
      simp only [Bool.and_eq_true, beq_iff_eq] at hcPred hePred
      have ht := hwf e heMem course hcMem hcPred.1
      subst hfe
      exact ⟨course, hcMem, by rw [ht, hePred.2], rfl, rfl⟩
  · intro cid d hd
    simp only [get_course_detail] at hd
    split at hd
    · exact absurd hd (by simp)
    · rename_i e hE
      split at hd
      · exact absurd hd (by simp)
      · rename_i course hc
        simp only [Except.ok.injEq] at hd
        have heMem := List.mem_of_find?_eq_some hE
        have hePred := List.find?_some hE
        have hcMem := List.mem_of_find?_eq_some hc
        have hcPred := List.find?_some hc
        simp only [Bool.and_eq_true, beq_iff_eq] at hePred hcPred
        have hid : course.id = e.course_id := by rw [hcPred.1, hePred.1.1]
        have ht := hwf e heMem course hcMem hid
        subst hd
        exact ⟨course, hcMem, by rw [ht, hePred.2], rfl, rfl⟩
  · intro cid ms hms r hr
    simp only [get_course_modules] at hms
    split at hms
    · exact absurd hms (by simp)
    · rename_i e hE
      simp only [Except.ok.injEq] at hms
      subst hms
      simp only [List.mem_map] at hr
      obtain ⟨m, hm, hrm⟩ := hr
      rw [mem_sortByKey, List.mem_filter] at hm
      obtain ⟨hmMem, hmPred⟩ := hm
      simp only [Bool.and_eq_true, beq_iff_eq] at hmPred
      subst hrm
      exact ⟨m, hmMem, hmPred.2, rfl, rfl⟩
  · intro mid ls hls r hr
    simp only [get_module_lessons] at hls
    split at hls
    · exact absurd hls (by simp)
    · rename_i m hm
      split at hls
      · exact absurd hls (by simp)
      · rename_i e hE
        simp only [Except.ok.injEq] at hls
        subst hls
        simp only [List.mem_map] at hr
        obtain ⟨lesson, hl, hrl⟩ := hr
        rw [mem_sortByKey, List.mem_filter] at hl
        obtain ⟨hlMem, hlPred⟩ := hl
        simp only [Bool.and_eq_true, beq_iff_eq] at hlPred
        subst hrl
        exact ⟨lesson, hlMem, hlPred.2, rfl, rfl⟩
  · intro lid d hd
    simp only [get_lesson_content] at hd
    split at hd
    · exact absurd hd (by simp)
    · rename_i lesson hl
      split at hd
      · exact absurd hd (by simp)
      · rename_i m hm
        split at hd
        · exact absurd hd (by simp)
        · rename_i e hE
          simp only [Except.ok.injEq] at hd
          have hlMem := List.mem_of_find?_eq_some hl
          have hlPred := List.find?_some hl
          simp only [Bool.and_eq_true, beq_iff_eq] at hlPred
          subst hd
          exact ⟨lesson, hlMem, hlPred.2, rfl, rfl⟩

/-- C1 witness: the amended isolation statement evaluated on the small
tenant-consistent state `w_db`. -/
theorem C1_tenant_isolation_witness :
    (∀ b ∈ get_my_courses w_user w_db, ∃ c ∈ w_db.courses,
      c.tenant_id = w_user.tenant_id ∧ b.id = c.id ∧ b.title = c.title) ∧
    (∀ cid d, get_course_detail cid w_user w_db = .ok d → ∃ c ∈ w_db.courses,
      c.tenant_id = w_user.tenant_id ∧ d.id = c.id ∧ d.title = c.title) ∧
    (∀ cid ms, get_course_modules cid w_user w_db = .ok ms → ∀ r ∈ ms,
      ∃ m ∈ w_db.modules,
        m.tenant_id = w_user.tenant_id ∧ r.id = m.id ∧ r.title = m.title) ∧
    (∀ mid ls, get_module_lessons mid w_user w_db = .ok ls → ∀ r ∈ ls,
      ∃ c ∈ w_db.content_items,
        c.tenant_id = w_user.tenant_id ∧ r.id = c.id ∧ r.title = c.title) ∧
    (∀ lid d, get_lesson_content lid w_user w_db = .ok d →
      ∃ c ∈ w_db.content_items,
        c.tenant_id = w_user.tenant_id ∧ d.id = c.id ∧ d.title = c.title) :=
  C1_tenant_isolation w_db w_user (by decide)

/-- C5: in `get_course_detail` the enrollment check comes first: a user with
no matching enrollment row gets 403 regardless of whether the course id
exists; for an enrolled user the existence-and-active lookup is applied,
yielding 404 when every course row with that id is inactive (or none exists)
and a detail response when an active one exists. -/
theorem C5_course_detail_enrollment_check_first (db : DB) (u : User) (cid : Nat) :
    ((∀ e ∈ db.course_enrollments,
        ¬(e.course_id = cid ∧ e.student_id = u.id ∧ e.tenant_id = u.tenant_id)) →
      get_course_detail cid u db = .error (.http 403 "You are not enrolled in this course")) ∧
    ((∃ e ∈ db.course_enrollments,
        e.course_id = cid ∧ e.student_id = u.id ∧ e.tenant_id = u.tenant_id) →
      ((∀ c ∈ db.courses, c.id = cid → c.is_active = false) →
        get_course_detail cid u db = .error (.http 404 "Course not found")) ∧
      (∀ c ∈ db.courses, c.id = cid → c.is_active = true →
        ∃ d, get_course_detail cid u db = .ok d ∧ d.id = cid)) := by
  constructor
  · intro h
    have hE : db.course_enrollments.find? (fun e =>
        e.course_id == cid && e.student_id == u.id && e.tenant_id == u.tenant_id) = none := by
      rw [List.find?_eq_none]
      intro e he
      have := h e he
      simp only [Bool.and_eq_true, beq_iff_eq]
      tauto
    simp [get_course_detail, hE]
  · intro hex
    have hEs : (db.course_enrollments.find? (fun e =>
        e.course_id == cid && e.student_id == u.id && e.tenant_id == u.tenant_id)).isSome := by
      rw [List.find?_isSome]
      obtain ⟨e, he, h1, h2, h3⟩ := hex
      exact ⟨e, he, by simp [h1, h2, h3]⟩
    obtain ⟨e, hE⟩ := Option.isSome_iff_exists.mp hEs
    constructor
    · intro hinact
      have hC : db.courses.find? (fun c => c.id == cid && c.is_active) = none := by
        rw [List.find?_eq_none]
        intro c hcMem
        simp only [Bool.and_eq_true, beq_iff_eq, not_and]
        intro hcid
        simp [hinact c hcMem hcid]
      simp [get_course_detail, hE, hC]
    · intro c hcMem hcid hact
      have hCs : (db.courses.find? (fun x => x.id == cid && x.is_active)).isSome := by
        rw [List.find?_isSome]
        exact ⟨c, hcMem, by simp [hcid, hact]⟩
      obtain ⟨c', hC⟩ := Option.isSome_iff_exists.mp hCs
      have hcPred := List.find?_some hC
      simp only [Bool.and_eq_true, beq_iff_eq] at hcPred
      refine ⟨{ id := c'.id, title := c'.title, code := c'.code,
                description := c'.description, faculty_name := c'.faculty_name },
              ?_, hcPred.1⟩
      simp [get_course_detail, hE, hC]

/-- C5 witness: 403 for a nonexistent course id when not enrolled, 404 for an
enrolled user whose course row is inactive, and a detail response when the
course is active. -/
theorem C5_course_detail_witness :
    get_course_detail 99 w_user w_db =
      .error (.http 403 "You are not enrolled in this course") ∧
    get_course_detail 10 w_user w_db_inactive = .error (.http 404 "Course not found") ∧
    ∃ d, get_course_detail 10 w_user w_db = .ok d ∧ d.id = 10 :=
  ⟨(C5_course_detail_enrollment_check_first w_db w_user 99).1 (by decide),
   ((C5_course_detail_enrollment_check_first w_db_inactive w_user 10).2 (by decide)).1
     (by decide),
   ((C5_course_detail_enrollment_check_first w_db w_user 10).2 (by decide)).2 w_course
     (by decide) (by decide) (by decide)⟩

/-- C3 counterexample: in `c3_db` the requester is enrolled in no course and
lesson id 99 does not exist, yet `get_lesson_content` answers 404 Not Found,
not 403 Forbidden — the existence check runs BEFORE the enrollment check, the
opposite of the claimed ordering. -/
theorem C3_nonexistent_lesson_yields_404 :
    c3_db.course_enrollments = [] ∧
    (∀ c ∈ c3_db.content_items, c.id ≠ 99) ∧
    get_lesson_content 99 c3_user c3_db = .error (.http 404 "Lesson not found") ∧
    get_lesson_content 99 c3_user c3_db ≠
      .error (.http 403 "You are not enrolled in this course") := by
  decide

/-- C3 (amended): for the lesson detail endpoint the in-tenant existence
check strictly precedes the enrollment check: a lesson id with no matching
in-tenant row yields 404 for every user (enrolled or not), and only when the
lesson exists (and its module row exists) does a user with no enrollment
rows get 403. -/
theorem C3_lesson_existence_check_first (db : DB) (u : User) (lid : Nat) :
    ((∀ c ∈ db.content_items, ¬(c.id = lid ∧ c.tenant_id = u.tenant_id)) →
      get_lesson_content lid u db = .error (.http 404 "Lesson not found")) ∧
    ((∃ c ∈ db.content_items, c.id = lid ∧ c.tenant_id = u.tenant_id) →
      (∀ c ∈ db.content_items, ∃ m ∈ db.modules, m.id = c.module_id) →
      (∀ e ∈ db.course_enrollments, ¬(e.student_id = u.id ∧ e.tenant_id = u.tenant_id)) →
      get_lesson_content lid u db = .error (.http 403 "You are not enrolled in this course")) := by
  constructor
  · intro h
    have hL : db.content_items.find? (fun c =>
        c.id == lid && c.tenant_id == u.tenant_id) = none := by
      rw [List.find?_eq_none]
      intro c hc
      have := h c hc
      simp only [Bool.and_eq_true, beq_iff_eq]
      tauto
    simp [get_lesson_content, hL]
  · intro hex hmods hnoenr
    have hLs : (db.content_items.find? (fun c =>
        c.id == lid && c.tenant_id == u.tenant_id)).isSome := by
      rw [List.find?_isSome]
      obtain ⟨c, hc, h1, h2⟩ := hex
      exact ⟨c, hc, by simp [h1, h2]⟩
    obtain ⟨lesson, hL⟩ := Option.isSome_iff_exists.mp hLs
    have hlMem := List.mem_of_find?_eq_some hL
    obtain ⟨m, hmMem, hmid⟩ := hmods lesson hlMem
    have hMs : (db.modules.find? (fun x => x.id == lesson.module_id)).isSome := by
      rw [List.find?_isSome]
      exact ⟨m, hmMem, by simp [hmid]⟩
    obtain ⟨mod, hM⟩ := Option.isSome_iff_exists.mp hMs
    have hE : db.course_enrollments.find? (fun e =>
        e.course_id == mod.course_id && e.student_id == u.id &&
        e.tenant_id == u.tenant_id) = none := by
      rw [List.find?_eq_none]
      intro e he
      have := hnoenr e he
      simp only [Bool.and_eq_true, beq_iff_eq]
      tauto
    simp [get_lesson_content, hL, hM, hE]

/-- C3 witness: the amended ordering evaluated — 404 for the missing lesson
id 99 even though `w_user` is enrolled, and 403 for the existing lesson 30
when the requester has no enrollments. -/
theorem C3_lesson_existence_check_witness :
    get_lesson_content 99 w_user w_db = .error (.http 404 "Lesson not found") ∧
    get_lesson_content 30 c3_user c3_db =
      .error (.http 403 "You are not enrolled in this course") :=
  ⟨(C3_lesson_existence_check_first w_db w_user 99).1 (by decide),
   (C3_lesson_existence_check_first c3_db c3_user 30).2 (by decide) (by decide) (by decide)⟩

/-- Success behaviour of `mark_lesson_complete`, shared by the progress
claims: when the lesson exists in the requester's tenant, its module row
exists and an enrollment row matches, the call returns the completion
response, leaves every other table untouched, and upserts the requester's
progress row for the lesson (update in place when a row exists, append of a
fresh completed row otherwise, all other progress rows untouched). -/
theorem mark_lesson_complete_ok (db : DB) (u : User) (lid t fid : Nat)
    (lesson : ContentItem) (mod : Module)
    (hL : db.content_items.find? (fun c =>
        c.id == lid && c.tenant_id == u.tenant_id) = some lesson)
    (hMod : db.modules.find? (fun m => m.id == lesson.module_id) = some mod)
    (hEnr : (db.course_enrollments.find? (fun e =>
        e.course_id == mod.course_id && e.student_id == u.id &&
        e.tenant_id == u.tenant_id)).isSome) :
    ∃ db1, mark_lesson_complete lid u t fid db =
        (.ok { message := "Lesson marked as complete", lesson_id := lid,
               completed_at := t }, db1) ∧
      db1.tenants = db.tenants ∧ db1.users = db.users ∧ db1.courses = db.courses ∧
      db1.course_enrollments = db.course_enrollments ∧ db1.modules = db.modules ∧
      db1.content_items = db.content_items ∧
      (∃ p, progress_for db1 u.id lid = some p ∧ p.student_id = u.id ∧
        p.content_item_id = lid ∧ p.is_completed = true ∧ p.completed_at = some t) ∧
      ((progress_for db u.id lid).isSome →
        progressKeys db1.lesson_progress = progressKeys db.lesson_progress) ∧
      (progress_for db u.id lid = none →
        db1.lesson_progress = db.lesson_progress ++
          [{ id := fid, student_id := u.id, content_item_id := lid,
             is_completed := true, completed_at := some t }]) ∧
      db1.lesson_progress.filter
          (fun p => !(p.student_id == u.id && p.content_item_id == lid)) =
        db.lesson_progress.filter
          (fun p => !(p.student_id == u.id && p.content_item_id == lid)) := by
  obtain ⟨e, hEe⟩ := Option.isSome_iff_exists.mp hEnr
  have hlPred := List.find?_some hL
  simp only [Bool.and_eq_true, beq_iff_eq] at hlPred
  have hlid : lesson.id = lid := hlPred.1
  simp only [mark_lesson_complete, hL, hMod, hEe, hlid]
  cases hP : db.lesson_progress.find? (fun p =>
      p.student_id == u.id && p.content_item_id == lid) with
  | some p0 =>
    simp only [hP]
    have hpPred := List.find?_some hP
    simp only [Bool.and_eq_true, beq_iff_eq] at hpPred
    refine ⟨_, rfl, rfl, rfl, rfl, rfl, rfl, rfl, ?_, ?_, ?_, ?_⟩
    · have hupd := find?_updateFirst
        (fun p => p.student_id == u.id && p.content_item_id == lid)
        (fun p => { p with is_completed := true, completed_at := some t })
        (fun x hx => hx) db.lesson_progress
      refine ⟨{ p0 with is_completed := true, completed_at := some t },
        ?_, hpPred.1, hpPred.2, rfl, rfl⟩
      simp only [progress_for, hupd, hP]
      simp
    · intro _
      simp only [progressKeys]
      exact map_updateFirst (fun p => p.student_id == u.id && p.content_item_id == lid)
        (fun p => { p with is_completed := true, completed_at := some t })
        (fun p => (p.student_id, p.content_item_id)) (fun x _ => rfl) db.lesson_progress
    · intro hcontra
      simp only [progress_for, hP] at hcontra
      exact Option.noConfusion hcontra
    · refine filter_updateFirst _ _ _ ?_ ?_ db.lesson_progress
      · intro x hx
        simp [hx]
      · intro x hx
        simp only [Bool.and_eq_true, beq_iff_eq] at hx
        simp [hx.1, hx.2]
  | none =>
    simp only [hP]
    refine ⟨_, rfl, rfl, rfl, rfl, rfl, rfl, rfl, ?_, ?_, fun _ => rfl, ?_⟩
    · have hone : List.find? (fun p => p.student_id == u.id && p.content_item_id == lid)
          (db.lesson_progress ++ [{ id := fid, student_id := u.id, content_item_id := lid, is_completed := true, completed_at := some t }])
          = some { id := fid, student_id := u.id, content_item_id := lid, is_completed := true, completed_at := some t } := by
        rw [List.find?_append, hP]
        simp
      exact ⟨_, hone, rfl, rfl, rfl, rfl⟩
    · intro hcontra
      simp only [progress_for, hP] at hcontra
      simp at hcontra
    · rw [List.filter_append]
      simp

/-- C4: for an enrolled student and an existing in-tenant lesson, one call to
`mark_lesson_complete` leaves the progress row for (student, lesson) with
`is_completed = true` and `completed_at` equal to the first call's timestamp;
a second call still succeeds, keeps `is_completed = true`, and overwrites
`completed_at` with the second call's timestamp. -/
theorem C4_complete_lesson_idempotent_effect (db : DB) (u : User)
    (lid t1 t2 fid1 fid2 : Nat) (lesson : ContentItem) (mod : Module)
    (hL : db.content_items.find? (fun c =>
        c.id == lid && c.tenant_id == u.tenant_id) = some lesson)
    (hMod : db.modules.find? (fun m => m.id == lesson.module_id) = some mod)
    (hEnr : (db.course_enrollments.find? (fun e =>
        e.course_id == mod.course_id && e.student_id == u.id &&
        e.tenant_id == u.tenant_id)).isSome) :
    (∃ p, progress_for (mark_lesson_complete lid u t1 fid1 db).2 u.id lid = some p ∧
      p.is_completed = true ∧ p.completed_at = some t1) ∧
    (mark_lesson_complete lid u t2 fid2 (mark_lesson_complete lid u t1 fid1 db).2).1 =
      .ok { message := "Lesson marked as complete", lesson_id := lid,
            completed_at := t2 } ∧
    (∃ p, progress_for
        (mark_lesson_complete lid u t2 fid2 (mark_lesson_complete lid u t1 fid1 db).2).2
        u.id lid = some p ∧ p.is_completed = true ∧ p.completed_at = some t2) := by
  obtain ⟨db1, heq1, hT1, hU1, hC1, hE1, hM1, hI1, ⟨p1, hp1, _, _, hp1c, hp1t⟩, _, _, _⟩ :=
    mark_lesson_complete_ok db u lid t1 fid1 lesson mod hL hMod hEnr
  have hL1 : db1.content_items.find? (fun c =>
      c.id == lid && c.tenant_id == u.tenant_id) = some lesson := by
    rw [hI1]; exact hL
  have hMod1 : db1.modules.find? (fun m => m.id == lesson.module_id) = some mod := by
    rw [hM1]; exact hMod
  have hEnr1 : (db1.course_enrollments.find? (fun e =>
      e.course_id == mod.course_id && e.student_id == u.id &&
      e.tenant_id == u.tenant_id)).isSome := by
    rw [hE1]; exact hEnr
  obtain ⟨db2, heq2, _, _, _, _, _, _, ⟨p2, hp2, _, _, hp2c, hp2t⟩, _, _, _⟩ :=
    mark_lesson_complete_ok db1 u lid t2 fid2 lesson mod hL1 hMod1 hEnr1
  have hsnd : (mark_lesson_complete lid u t1 fid1 db).2 = db1 := by rw [heq1]
  rw [hsnd]
  refine ⟨⟨p1, hp1, hp1c, hp1t⟩, ?_, ?_⟩
  · rw [heq2]
  · rw [heq2]
    exact ⟨p2, hp2, hp2c, hp2t⟩

/-- C4 witness: completing lesson 30 twice in the witness state — first at
time 100, then at time 200 — leaves a completed row stamped 100 after the
first call and stamped 200 after the second. -/
theorem C4_complete_lesson_witness :
    (∃ p, progress_for (mark_lesson_complete 30 w_user 100 500 w_db).2 w_user.id 30 =
        some p ∧ p.is_completed = true ∧ p.completed_at = some 100) ∧
    (mark_lesson_complete 30 w_user 200 501 (mark_lesson_complete 30 w_user 100 500 w_db).2).1 =
      .ok { message := "Lesson marked as complete", lesson_id := 30,
            completed_at := 200 } ∧
    (∃ p, progress_for
        (mark_lesson_complete 30 w_user 200 501 (mark_lesson_complete 30 w_user 100 500 w_db).2).2
        w_user.id 30 = some p ∧ p.is_completed = true ∧ p.completed_at = some 200) :=
  C4_complete_lesson_idempotent_effect w_db w_user 30 100 200 500 501 w_lesson w_mod
    (by decide) (by decide) (by decide)

/-- C6: sequential preservation of the at-most-one-row-per-pair invariant by
`mark_lesson_complete` on a successful call: if the state has at most one
progress row per (student, content item), so does the state after the call;
when a row for the pair already exists the table keeps its length (update in
place), and when none exists exactly one row is appended (lazy creation). -/
theorem C6_progress_upsert_preserves_uniqueness (db : DB) (u : User)
    (lid t fid : Nat) (lesson : ContentItem) (mod : Module)
    (hL : db.content_items.find? (fun c =>
        c.id == lid && c.tenant_id == u.tenant_id) = some lesson)
    (hMod : db.modules.find? (fun m => m.id == lesson.module_id) = some mod)
    (hEnr : (db.course_enrollments.find? (fun e =>
        e.course_id == mod.course_id && e.student_id == u.id &&
        e.tenant_id == u.tenant_id)).isSome)
    (hinv : AtMostOnePerPair db.lesson_progress) :
    AtMostOnePerPair (mark_lesson_complete lid u t fid db).2.lesson_progress ∧
    ((progress_for db u.id lid).isSome →
      (mark_lesson_complete lid u t fid db).2.lesson_progress.length =
        db.lesson_progress.length) ∧
    (progress_for db u.id lid = none →
      (mark_lesson_complete lid u t fid db).2.lesson_progress.length =
        db.lesson_progress.length + 1) := by
  obtain ⟨db1, heq, _, _, _, _, _, _, _, hkeys, hnone, _⟩ :=
    mark_lesson_complete_ok db u lid t fid lesson mod hL hMod hEnr
  have hsnd : (mark_lesson_complete lid u t fid db).2 = db1 := by rw [heq]
  rw [hsnd]
  cases hP : progress_for db u.id lid with
  | some p0 =>
    have hk := hkeys (by rw [hP]; rfl)
    have hlen : db1.lesson_progress.length = db.lesson_progress.length := by
      have := congrArg List.length hk
      simpa [progressKeys] using this
    refine ⟨?_, fun _ => hlen, fun hc => ?_⟩
    · unfold AtMostOnePerPair
      rw [hk]
      exact hinv
    · exact Option.noConfusion hc
  | none =>
    have happ := hnone hP
    have hP' : db.lesson_progress.find? (fun p =>
        p.student_id == u.id && p.content_item_id == lid) = none := hP
    refine ⟨?_, fun hs => ?_, fun _ => ?_⟩
    · unfold AtMostOnePerPair progressKeys at hinv ⊢
      rw [happ, List.map_append, List.pairwise_append]
      refine ⟨hinv, by simp, ?_⟩
      intro a ha b hb
      simp only [List.map_cons, List.map_nil, List.mem_singleton] at hb
      subst hb
      simp only [List.mem_map] at ha
      obtain ⟨p, hpMem, hpa⟩ := ha
      subst hpa
      have hno := List.find?_eq_none.mp hP' p hpMem
      simp only [Bool.and_eq_true, beq_iff_eq, not_and] at hno
      intro hcontra
      rw [Prod.mk.injEq] at hcontra
      exact hno hcontra.1 hcontra.2
    · simp at hs
    · rw [happ, List.length_append]
      rfl

/-- C6 witness: in the witness state (no progress rows yet) completing
lesson 30 appends exactly one row and keeps the per-pair uniqueness
invariant. -/
theorem C6_progress_upsert_witness :
    AtMostOnePerPair (mark_lesson_complete 30 w_user 100 500 w_db).2.lesson_progress ∧
    ((progress_for w_db w_user.id 30).isSome →
      (mark_lesson_complete 30 w_user 100 500 w_db).2.lesson_progress.length =
        w_db.lesson_progress.length) ∧
    (progress_for w_db w_user.id 30 = none →
      (mark_lesson_complete 30 w_user 100 500 w_db).2.lesson_progress.length =
        w_db.lesson_progress.length + 1) :=
  C6_progress_upsert_preserves_uniqueness w_db w_user 30 100 500 w_lesson w_mod
    (by decide) (by decide) (by decide) List.Pairwise.nil

/-- C10: frame property — a successful `mark_lesson_complete` call leaves the
tenants, users, courses, enrollments, modules and content items tables
unchanged, and leaves every progress row other than the one for (requester,
requested lesson) unchanged. -/
theorem C10_complete_lesson_frame (db : DB) (u : User) (lid t fid : Nat)
    (r : CompleteResponse) (db1 : DB)
    (h : mark_lesson_complete lid u t fid db = (.ok r, db1)) :
    db1.tenants = db.tenants ∧ db1.users = db.users ∧ db1.courses = db.courses ∧
    db1.course_enrollments = db.course_enrollments ∧ db1.modules = db.modules ∧
    db1.content_items = db.content_items ∧
    db1.lesson_progress.filter
        (fun p => !(p.student_id == u.id && p.content_item_id == lid)) =
      db.lesson_progress.filter
        (fun p => !(p.student_id == u.id && p.content_item_id == lid)) := by
  simp only [mark_lesson_complete] at h
  split at h
  · simp at h
  · rename_i lesson hL
    split at h
    · simp at h
    · rename_i mod hMod
      split at h
      · simp at h
      · rename_i e hEnr
        have hlPred := List.find?_some hL
        simp only [Bool.and_eq_true, beq_iff_eq] at hlPred
        split at h
        · rename_i p0 hP
          simp only [Prod.mk.injEq, Except.ok.injEq] at h
          obtain ⟨-, hdb⟩ := h
          subst hdb
          refine ⟨rfl, rfl, rfl, rfl, rfl, rfl, ?_⟩
          refine filter_updateFirst _ _ _ ?_ ?_ db.lesson_progress
          · intro x hx
            simp only [Bool.and_eq_true, beq_iff_eq] at hx
            simp [hx.1, hx.2, hlPred.1]
          · intro x hx
            simp only [Bool.and_eq_true, beq_iff_eq] at hx
            simp [hx.1, hx.2, hlPred.1]
        · rename_i hP
          simp only [Prod.mk.injEq, Except.ok.injEq] at h
          obtain ⟨-, hdb⟩ := h
          subst hdb
          refine ⟨rfl, rfl, rfl, rfl, rfl, rfl, ?_⟩
          rw [List.filter_append]
          simp [hlPred.1]

/-- C10 witness: the concrete completion of lesson 30 in the witness state
produces exactly `w_db_progress`, and every non-progress table and every
other progress row is untouched. -/
theorem C10_complete_lesson_frame_witness :
    w_db_progress.tenants = w_db.tenants ∧ w_db_progress.users = w_db.users ∧
    w_db_progress.courses = w_db.courses ∧
    w_db_progress.course_enrollments = w_db.course_enrollments ∧
    w_db_progress.modules = w_db.modules ∧
    w_db_progress.content_items = w_db.content_items ∧
    w_db_progress.lesson_progress.filter
        (fun p => !(p.student_id == w_user.id && p.content_item_id == 30)) =
      w_db.lesson_progress.filter
        (fun p => !(p.student_id == w_user.id && p.content_item_id == 30)) :=
  C10_complete_lesson_frame w_db w_user 30 100 500
    { message := "Lesson marked as complete", lesson_id := 30, completed_at := 100 }
    w_db_progress (by decide)

/-- C7: the my-courses listing lists precisely the courses for which the
requester has an enrollment row in their own tenant AND whose `is_active`
flag is true; an enrollment pointing at an inactive or missing course
contributes nothing (the listing is total — it never errors).  Course ids
are assumed pairwise distinct, as the primary key guarantees. -/
theorem C7_my_courses_exact (db : DB) (u : User)
    (hids : db.courses.Pairwise (fun a b => a.id ≠ b.id)) :
    ∀ c ∈ db.courses,
      (((∃ e ∈ db.course_enrollments,
          e.student_id = u.id ∧ e.tenant_id = u.tenant_id ∧ e.course_id = c.id) ∧
        c.is_active = true) ↔
       ∃ b ∈ get_my_courses u db, b.id = c.id) := by
  intro c hc
  constructor
  · rintro ⟨⟨e, heMem, he1, he2, he3⟩, hact⟩
    have hCs : (db.courses.find? (fun x => x.id == e.course_id && x.is_active)).isSome := by
      rw [List.find?_isSome]
      exact ⟨c, hc, by simp [← he3, hact]⟩
    obtain ⟨c', hC⟩ := Option.isSome_iff_exists.mp hCs
    have hcPred := List.find?_some hC
    simp only [Bool.and_eq_true, beq_iff_eq] at hcPred
    refine ⟨{ id := c'.id, title := c'.title, code := c'.code,
              faculty_name := c'.faculty_name }, ?_, ?_⟩
    · simp only [get_my_courses, List.mem_filterMap]
      refine ⟨e, ?_, ?_⟩
      · rw [List.mem_filter]
        exact ⟨heMem, by simp [he1, he2]⟩
      · rw [hC]
    · rw [hcPred.1, he3]
  · rintro ⟨b, hb, hbid⟩
    simp only [get_my_courses, List.mem_filterMap, List.mem_filter] at hb
    obtain ⟨e, ⟨heMem, hePred⟩, hfe⟩ := hb
    cases hC : db.courses.find? (fun x => x.id == e.course_id && x.is_active) with
    | none => rw [hC] at hfe; exact absurd hfe (by simp)
    | some c' =>
      rw [hC] at hfe
      rw [Option.some_inj] at hfe
      subst hfe
      have hcMem' := List.mem_of_find?_eq_some hC
      have hcPred := List.find?_some hC
      simp only [Bool.and_eq_true, beq_iff_eq] at hcPred hePred
      have hid' : c'.id = c.id := hbid
      have hsym : Symmetric (fun a b : Course => a.id ≠ b.id) :=
        fun a b h => Ne.symm h
      have hcc : c' = c := by
        by_contra hne
        exact List.Pairwise.forall hsym hids hcMem' hc hne hid'
      refine ⟨⟨e, heMem, hePred.1, hePred.2, ?_⟩, ?_⟩
      · rw [← hcc, hcPred.1]
      · rw [← hcc]
        exact hcPred.2

/-- C7 witness: in the witness state the enrolled active course 10 is listed,
and in the inactive variant the same enrollment row is silently dropped, so
nothing with id 10 is listed. -/
theorem C7_my_courses_witness :
    (((∃ e ∈ w_db.course_enrollments,
        e.student_id = w_user.id ∧ e.tenant_id = w_user.tenant_id ∧
        e.course_id = w_course.id) ∧ w_course.is_active = true) ↔
      ∃ b ∈ get_my_courses w_user w_db, b.id = w_course.id) ∧
    ((((∃ e ∈ w_db_inactive.course_enrollments,
        e.student_id = w_user.id ∧ e.tenant_id = w_user.tenant_id ∧
        e.course_id = 10) ∧ ({ w_course with is_active := false } : Course).is_active = true) ↔
      ∃ b ∈ get_my_courses w_user w_db_inactive, b.id = 10)) :=
  ⟨C7_my_courses_exact w_db w_user (by decide) w_course (by decide),
   C7_my_courses_exact w_db_inactive w_user (by decide)
     { w_course with is_active := false } (by decide)⟩

end MedLMS
